import Mathlib

/-!
Shallow embedding of the gateway in src/dsa-backend/server.js.

The gateway keeps a single in-process cache (folderCache, cacheTimestamp),
serves a folder listing with a cache / live-fetch / fallback precedence,
forwards validated file-creation requests to a persistence service, and
exposes a health endpoint.  Asynchronous I/O is modelled by passing the
outcome of each upstream call as an explicit argument; the two reads of
Date.now inside one listing call (lines 86 and 96) are modelled as the
same instant, since no claim observes the in-flight latency.
-/

namespace DSA

/-- JS truthiness of an optional string field (lines 113-116): an absent
field and the empty string are falsy, every other string is truthy. -/
def truthy : Option String → Bool
  | none => false
  | some s => !s.isEmpty

/-- The action whitelist checked on line 120 of server.js. -/
def validActions : List String := ["check", "overwrite", "version", "reject"]

/-- The includes-test on line 120; an absent action is not a member. -/
def actionValid : Option String → Bool
  | none => false
  | some a => validActions.contains a

/-- A FolderTree as built by server.js: a JS object mapping top-level
folder names to lists of subfolder names, modelled as an association list
in insertion order. -/
abbrev FolderTree := List (String × List String)

/-- The hardcoded fallback tree returned by getFallbackFolders
(lines 72-80 of server.js). -/
def getFallbackFolders : FolderTree :=
  [("DS", ["Arrays", "LinkedList", "Stack", "Queue", "Tree", "Graph"]),
   ("Patterns", ["TwoPointers", "SlidingWindow", "BinarySearch", "DFS", "BFS"]),
   ("Algorithms", ["Sorting", "Searching", "DynamicProgramming"]),
   ("Practice", ["Easy", "Medium", "Hard"])]

/-- One entry of a GitHub contents listing: the fields the code reads. -/
structure GhEntry where
  name : String
  type : String
deriving DecidableEq, Repr

/-- Filter a contents listing to directory entries and keep their names
(lines 52-54 of server.js). -/
def dirNames (entries : List GhEntry) : List String :=
  (entries.filter (fun i => i.type == "dir")).map (fun i => i.name)

/-- JS object property assignment folderTree[k] = v (lines 56 and 59):
an existing key keeps its position and gets the new value, a new key is
appended. -/
def objInsert (m : FolderTree) (k : String) (v : List String) : FolderTree :=
  if m.any (fun p => p.1 == k) then
    m.map (fun p => if p.1 == k then (k, v) else p)
  else m ++ [(k, v)]

/-- Body of the for-loop over top-level folders (lines 43-61 of
server.js): on a successful per-folder listing assign the directory-typed
child names, on a thrown error (caught on line 57) assign the empty
list. -/
def loopStep (sub : String → Option (List GhEntry)) (tree : FolderTree)
    (folder : GhEntry) : FolderTree :=
  match sub folder.name with
  | some entries => objInsert tree folder.name (dirNames entries)
  | none => objInsert tree folder.name []

/-- fetchFoldersFromGitHub (lines 29-69 of server.js).  The root listing
outcome is root (none models the outer axios call throwing, which the
function re-throws, line 67); sub gives each per-folder listing outcome,
none modelling the inner axios call throwing.  The root entries are
filtered to directories (line 39) and the loop builds the tree object
starting from the empty object (line 40). -/
def fetchFoldersFromGitHub (root : Option (List GhEntry))
    (sub : String → Option (List GhEntry)) : Option FolderTree :=
  match root with
  | none => none
  | some items =>
    some ((items.filter (fun i => i.type == "dir")).foldl (loopStep sub) [])

/-- The module-level cache variables folderCache and cacheTimestamp
(lines 15-16 of server.js), both initially null. -/
structure CacheState where
  folderCache : Option FolderTree
  cacheTimestamp : Option Nat
deriving DecidableEq, Repr

/-- The constant CACHE_TTL = 5 * 60 * 1000 milliseconds (line 17). -/
def CACHE_TTL : Nat := 5 * 60 * 1000

/-- The freshness test on line 87: folderCache truthy, cacheTimestamp
truthy (a timestamp of 0 is falsy in JS), and age below the TTL.  The JS
subtraction can be negative, in which case the comparison holds, matching
truncated Nat subtraction. -/
def cacheFresh (st : CacheState) (now : Nat) : Bool :=
  match st.folderCache, st.cacheTimestamp with
  | some _, some ts => ts != 0 && now - ts < CACHE_TTL
  | _, _ => false

/-- Response of the folders endpoint: an HTTP status and a tree body. -/
structure FoldersResult where
  status : Nat
  body : FolderTree
deriving DecidableEq, Repr

/-- The fetch-or-fallback step of the folders handler (lines 93-103):
on success replace both cache variables and return the new tree, on
failure return the fallback without touching the cache.  Every path
responds via res.json, i.e. status 200. -/
def fetchStep (st : CacheState) (now : Nat) (fetchResult : Option FolderTree) :
    FoldersResult × CacheState × Bool :=
  match fetchResult with
  | some folders => (⟨200, folders⟩, ⟨some folders, some now⟩, true)
  | none => (⟨200, getFallbackFolders⟩, st, true)

/-- The GET /api/folders handler (lines 83-108): fresh cache short-circuit,
otherwise fetch-or-fallback.  The third component records whether the
upstream tree client was invoked on this call. -/
def getFoldersHandler (st : CacheState) (now : Nat)
    (fetchResult : Option FolderTree) : FoldersResult × CacheState × Bool :=
  match st.folderCache, st.cacheTimestamp with
  | some cached, some ts =>
    if ts != 0 && now - ts < CACHE_TTL then (⟨200, cached⟩, st, false)
    else fetchStep st now fetchResult
  | some cached, none =>
    let _ := cached
    fetchStep st now fetchResult
  | none, _ => fetchStep st now fetchResult

/-- Run a sequence of folders calls, each given as the time it arrives and
the outcome its live fetch would have; returns the final cache state and
the number of calls that actually invoked the upstream tree client. -/
def runFolders (st : CacheState) (calls : List (Nat × Option FolderTree)) :
    CacheState × Nat :=
  match calls with
  | [] => (st, 0)
  | (now, fr) :: rest =>
    let r := getFoldersHandler st now fr
    let rec2 := runFolders r.2.1 rest
    (rec2.1, (if r.2.2 then 1 else 0) + rec2.2)

/-- The inbound body of POST /api/create-file as destructured on line 113:
the five named fields, plus whatever extra fields the client sent, which
the destructuring ignores. -/
structure CreationRequest where
  topFolder : Option String
  subFolder : Option String
  filename : Option String
  content : Option String
  action : Option String
  extra : List (String × String)
deriving DecidableEq, Repr

/-- The payload posted to the persistence service (lines 127-133): exactly
the five destructured fields. -/
structure ForwardPayload where
  topFolder : Option String
  subFolder : Option String
  filename : Option String
  content : Option String
  action : Option String
deriving DecidableEq, Repr

/-- Build the forwarded payload from a request (lines 127-133). -/
def payloadOf (r : CreationRequest) : ForwardPayload :=
  ⟨r.topFolder, r.subFolder, r.filename, r.content, r.action⟩

/-- Outcome of the axios.post to the persistence service: a 2xx response
with data; a non-2xx response carrying a status and body (error.response
set); a refused connection (error.code ECONNREFUSED, line 141); a timeout
after 30s (error.code ECONNABORTED, no response received); or another
network failure without a response. -/
inductive PersistOutcome where
  | success (data : String)
  | errorResponse (status : Nat) (body : String)
  | connRefused
  | timeout
  | netError
deriving DecidableEq, Repr

/-- A response body sent by the gateway: a locally built error object, or
upstream data passed through verbatim. -/
inductive RespBody where
  | jsonError (msg : String)
  | upstream (data : String)
deriving DecidableEq, Repr

/-- An HTTP response of the create-file endpoint. -/
structure HttpResponse where
  status : Nat
  body : RespBody
deriving DecidableEq, Repr

/-- The POST /api/create-file handler (lines 111-153).  The second
component is the payload sent to the persistence service, or none when no
upstream call was made.  The catch block (lines 138-152) distinguishes
ECONNREFUSED, a response-bearing error, and everything else. -/
def createFile (r : CreationRequest)
    (upstream : ForwardPayload → PersistOutcome) :
    HttpResponse × Option ForwardPayload :=
  if !truthy r.topFolder || !truthy r.subFolder || !truthy r.filename ||
      !truthy r.content then
    (⟨400, .jsonError "Missing required fields"⟩, none)
  else if !actionValid r.action then
    (⟨400, .jsonError "Invalid action"⟩, none)
  else
    match upstream (payloadOf r) with
    | .success d => (⟨200, .upstream d⟩, some (payloadOf r))
    | .connRefused =>
        (⟨503, .jsonError "Python service not available. Is it running on port 5000?"⟩,
         some (payloadOf r))
    | .errorResponse s b => (⟨s, .upstream b⟩, some (payloadOf r))
    | .timeout => (⟨500, .jsonError "Internal server error"⟩, some (payloadOf r))
    | .netError => (⟨500, .jsonError "Internal server error"⟩, some (payloadOf r))

/-- The body of the GET /health response (lines 156-162). -/
structure HealthBody where
  status : String
  service : String
  cacheStatus : String
deriving DecidableEq, Repr

/-- The GET /health handler (lines 156-162): always res.json (status 200),
cacheStatus depends only on the truthiness of folderCache. -/
def healthHandler (st : CacheState) : Nat × HealthBody :=
  (200, ⟨"ok", "node-gateway",
    match st.folderCache with
    | some _ => "loaded"
    | none => "empty"⟩)

/-- One inbound request to the gateway, carrying the outcomes its upstream
calls would have. -/
inductive Request where
  | folders (now : Nat) (fetchResult : Option FolderTree)
  | create (r : CreationRequest) (upstream : ForwardPayload → PersistOutcome)
  | health

/-- A gateway response, tagged by endpoint. -/
inductive Response where
  | folders (r : FoldersResult)
  | create (r : HttpResponse) (sent : Option ForwardPayload)
  | health (status : Nat) (body : HealthBody)

/-- Dispatch one request against the shared cache state: only the folders
handler ever receives the state back. -/
def handle (st : CacheState) (req : Request) : Response × CacheState :=
  match req with
  | .folders now fetchResult =>
    let r := getFoldersHandler st now fetchResult
    (.folders r.1, r.2.1)
  | .create r upstream =>
    let c := createFile r upstream
    (.create c.1 c.2, st)
  | .health =>
    let h := healthHandler st
    (.health h.1 h.2, st)

/-- Helper: the payload forwarded by createFile, when one is forwarded at
all, is exactly the five destructured fields of the request. -/
theorem createFile_sent_payload (r : CreationRequest)
    (u : ForwardPayload → PersistOutcome) :
    (createFile r u).2 = none ∨ (createFile r u).2 = some (payloadOf r) := by
  unfold createFile
  split
  · left; rfl
  · split
    · left; rfl
    · split <;> (right; rfl)

/-- Claim C1: a CreationRequest with topFolder, subFolder, filename or
content missing or empty, or with an action outside the four allowed
values, gets a 400 response with an error body and causes no call to the
persistence service. -/
theorem createFile_invalid_rejected_locally (r : CreationRequest)
    (upstream : ForwardPayload → PersistOutcome)
    (h : truthy r.topFolder = false ∨ truthy r.subFolder = false ∨
         truthy r.filename = false ∨ truthy r.content = false ∨
         actionValid r.action = false) :
    (createFile r upstream).1.status = 400 ∧
    (∃ msg, (createFile r upstream).1.body = RespBody.jsonError msg) ∧
    (createFile r upstream).2 = none := by
  cases hC : !truthy r.topFolder || !truthy r.subFolder || !truthy r.filename ||
      !truthy r.content with
  | true => simp [createFile, hC]
  | false =>
    have h4 : truthy r.topFolder = true ∧ truthy r.subFolder = true ∧
        truthy r.filename = true ∧ truthy r.content = true := by
      simpa [and_assoc] using hC
    have hact : actionValid r.action = false := by
      rcases h with h | h | h | h | h <;> simp_all
    simp [createFile, hC, hact]

/-- Witness for C1: a request with an empty subFolder is rejected with 400
and nothing is forwarded, even though the persistence service would have
accepted it. -/
theorem createFile_invalid_rejected_locally_witness :
    (createFile ⟨some "DS", some "", some "a.cpp", some "x", some "check", []⟩
        (fun _ => PersistOutcome.success "ok")).1.status = 400 ∧
    (∃ msg, (createFile ⟨some "DS", some "", some "a.cpp", some "x", some "check", []⟩
        (fun _ => PersistOutcome.success "ok")).1.body = RespBody.jsonError msg) ∧
    (createFile ⟨some "DS", some "", some "a.cpp", some "x", some "check", []⟩
        (fun _ => PersistOutcome.success "ok")).2 = none :=
  createFile_invalid_rejected_locally _ _ (Or.inr (Or.inl (by decide)))

/-- Claim C10: the required-field check runs before the action check, so a
request failing both yields the missing-fields error, while a request with
all four fields present and a bad action yields the invalid-action
error. -/
theorem createFile_validation_order (r1 r2 : CreationRequest)
    (u1 u2 : ForwardPayload → PersistOutcome)
    (hmiss : truthy r1.topFolder = false ∨ truthy r1.subFolder = false ∨
             truthy r1.filename = false ∨ truthy r1.content = false)
    (_hact1 : actionValid r1.action = false)
    (hok : truthy r2.topFolder = true ∧ truthy r2.subFolder = true ∧
           truthy r2.filename = true ∧ truthy r2.content = true)
    (hact2 : actionValid r2.action = false) :
    (createFile r1 u1).1 = ⟨400, RespBody.jsonError "Missing required fields"⟩ ∧
    (createFile r2 u2).1 = ⟨400, RespBody.jsonError "Invalid action"⟩ := by
  constructor
  · rcases hmiss with h | h | h | h <;> simp [createFile, h]
  · obtain ⟨h1, h2, h3, h4⟩ := hok
    simp [createFile, h1, h2, h3, h4, hact2]

/-- Witness for C10: a request missing every field with a bad action gets
the missing-fields error; one with all fields but the same bad action gets
the invalid-action error. -/
theorem createFile_validation_order_witness :
    (createFile ⟨none, none, none, none, some "explode", []⟩
        (fun _ => PersistOutcome.success "ok")).1 =
      ⟨400, RespBody.jsonError "Missing required fields"⟩ ∧
    (createFile ⟨some "DS", some "Arrays", some "a.cpp", some "x", some "explode", []⟩
        (fun _ => PersistOutcome.success "ok")).1 =
      ⟨400, RespBody.jsonError "Invalid action"⟩ :=
  createFile_validation_order _ _ _ _ (Or.inl (by decide)) (by decide)
    (by decide) (by decide)

/-- Claim C9: two inbound bodies agreeing on the five destructured fields
produce identical forwarded payloads and identical responses under the
same upstream behaviour, and the payload that reaches the persistence
service, when any does, is exactly the five-field projection of the
request — extra fields never reach it. -/
theorem createFile_ignores_extra_fields (r1 r2 : CreationRequest)
    (u : ForwardPayload → PersistOutcome)
    (h1 : r1.topFolder = r2.topFolder) (h2 : r1.subFolder = r2.subFolder)
    (h3 : r1.filename = r2.filename) (h4 : r1.content = r2.content)
    (h5 : r1.action = r2.action) :
    createFile r1 u = createFile r2 u ∧
    ((createFile r1 u).2 = none ∨ (createFile r1 u).2 = some (payloadOf r1)) := by
  have hp : payloadOf r1 = payloadOf r2 := by
    simp [payloadOf, h1, h2, h3, h4, h5]
  refine ⟨?_, createFile_sent_payload r1 u⟩
  unfold createFile
  rw [h1, h2, h3, h4, h5, hp]

/-- Witness for C9: adding an extra field to a well-formed request changes
neither the response nor the forwarded payload. -/
theorem createFile_ignores_extra_fields_witness :
    createFile ⟨some "DS", some "Arrays", some "a.cpp", some "x", some "check",
        [("evil", "1")]⟩ (fun _ => PersistOutcome.success "ok") =
      createFile ⟨some "DS", some "Arrays", some "a.cpp", some "x", some "check", []⟩
        (fun _ => PersistOutcome.success "ok") ∧
    ((createFile ⟨some "DS", some "Arrays", some "a.cpp", some "x", some "check",
        [("evil", "1")]⟩ (fun _ => PersistOutcome.success "ok")).2 = none ∨
     (createFile ⟨some "DS", some "Arrays", some "a.cpp", some "x", some "check",
        [("evil", "1")]⟩ (fun _ => PersistOutcome.success "ok")).2 =
       some (payloadOf ⟨some "DS", some "Arrays", some "a.cpp", some "x", some "check",
        [("evil", "1")]⟩)) :=
  createFile_ignores_extra_fields _ _ _ rfl rfl rfl rfl rfl

/-- A request passing both validation checks on lines 116-122. -/
abbrev wellFormed (r : CreationRequest) : Prop :=
  truthy r.topFolder = true ∧ truthy r.subFolder = true ∧
  truthy r.filename = true ∧ truthy r.content = true ∧
  actionValid r.action = true

/-- Helper: on a well-formed request the handler reaches the forwarding
step and its result is determined by the upstream outcome alone. -/
theorem createFile_valid_eq (r : CreationRequest)
    (u : ForwardPayload → PersistOutcome) (h : wellFormed r) :
    createFile r u =
      match u (payloadOf r) with
      | .success d => (⟨200, .upstream d⟩, some (payloadOf r))
      | .connRefused =>
          (⟨503, .jsonError "Python service not available. Is it running on port 5000?"⟩,
           some (payloadOf r))
      | .errorResponse s b => (⟨s, .upstream b⟩, some (payloadOf r))
      | .timeout => (⟨500, .jsonError "Internal server error"⟩, some (payloadOf r))
      | .netError => (⟨500, .jsonError "Internal server error"⟩, some (payloadOf r)) := by
  obtain ⟨h1, h2, h3, h4, h5⟩ := h
  simp [createFile, h1, h2, h3, h4, h5]

/-- Counterexample to C4 as stated: on a well-formed request whose
forwarding times out (no response received, error code ECONNABORTED, so
neither the ECONNREFUSED branch nor the response branch of the catch
applies), the handler answers 500, not 503. -/
theorem createFile_timeout_is_500 :
    (createFile ⟨some "DS", some "Arrays", some "a.cpp", some "x", some "check", []⟩
        (fun _ => PersistOutcome.timeout)).1 =
      ⟨500, RespBody.jsonError "Internal server error"⟩ ∧
    (500 : Nat) ≠ 503 := by
  decide

/-- Claim C4 (amended): for a well-formed request, a refused connection to
the persistence service yields exactly 503 with an error message, while a
timeout with no response received is handled as a failure of that call and
yields the generic 500 internal error, not 503. -/
theorem createFile_unavailable_503 (r : CreationRequest)
    (u1 u2 : ForwardPayload → PersistOutcome) (hwf : wellFormed r)
    (h1 : u1 (payloadOf r) = PersistOutcome.connRefused)
    (h2 : u2 (payloadOf r) = PersistOutcome.timeout) :
    (createFile r u1).1 =
      ⟨503, RespBody.jsonError "Python service not available. Is it running on port 5000?"⟩ ∧
    (createFile r u2).1 = ⟨500, RespBody.jsonError "Internal server error"⟩ := by
  constructor
  · rw [createFile_valid_eq r u1 hwf, h1]
  · rw [createFile_valid_eq r u2 hwf, h2]

/-- Witness for C4 (amended) at a concrete well-formed request. -/
theorem createFile_unavailable_503_witness :
    (createFile ⟨some "DS", some "Arrays", some "a.cpp", some "x", some "check", []⟩
        (fun _ => PersistOutcome.connRefused)).1 =
      ⟨503, RespBody.jsonError "Python service not available. Is it running on port 5000?"⟩ ∧
    (createFile ⟨some "DS", some "Arrays", some "a.cpp", some "x", some "check", []⟩
        (fun _ => PersistOutcome.timeout)).1 =
      ⟨500, RespBody.jsonError "Internal server error"⟩ :=
  createFile_unavailable_503 _ _ _ (by decide) rfl rfl

/-- Claim C5: for a well-formed request, a non-success upstream status and
body are passed through verbatim, and a success response has its data
returned unmodified with status 200. -/
theorem createFile_passthrough (r : CreationRequest)
    (u1 u2 : ForwardPayload → PersistOutcome) (hwf : wellFormed r)
    (s : Nat) (b d : String)
    (h1 : u1 (payloadOf r) = PersistOutcome.errorResponse s b)
    (h2 : u2 (payloadOf r) = PersistOutcome.success d) :
    (createFile r u1).1 = ⟨s, RespBody.upstream b⟩ ∧
    (createFile r u2).1 = ⟨200, RespBody.upstream d⟩ := by
  constructor
  · rw [createFile_valid_eq r u1 hwf, h1]
  · rw [createFile_valid_eq r u2 hwf, h2]

/-- Witness for C5: a 409 with a body is propagated with the same status
and body, and a success body is returned as sent by upstream. -/
theorem createFile_passthrough_witness :
    (createFile ⟨some "DS", some "Arrays", some "a.cpp", some "x", some "overwrite", []⟩
        (fun _ => PersistOutcome.errorResponse 409 "conflict body")).1 =
      ⟨409, RespBody.upstream "conflict body"⟩ ∧
    (createFile ⟨some "DS", some "Arrays", some "a.cpp", some "x", some "overwrite", []⟩
        (fun _ => PersistOutcome.success "created")).1 =
      ⟨200, RespBody.upstream "created"⟩ :=
  createFile_passthrough _ _ _ (by decide) 409 "conflict body" "created" rfl rfl

/-- Claim C8: the health endpoint always answers 200 with status ok,
service node-gateway, and cacheStatus equal to loaded exactly when a cache
entry exists; the handler reads no clock, so freshness plays no role. -/
theorem health_contract (st : CacheState) :
    (healthHandler st).1 = 200 ∧
    (healthHandler st).2.status = "ok" ∧
    (healthHandler st).2.service = "node-gateway" ∧
    ((healthHandler st).2.cacheStatus = "loaded" ↔ st.folderCache.isSome = true) := by
  refine ⟨rfl, rfl, rfl, ?_⟩
  cases h : st.folderCache <;> simp [healthHandler, h]

/-- Claim C3: when no fresh cache entry exists and the live fetch fails,
the folders handler answers 200 with the fixed non-empty fallback tree and
leaves both cache variables exactly as they were. -/
theorem folders_fallback_on_failure (st : CacheState) (now : Nat)
    (hstale : cacheFresh st now = false) :
    getFoldersHandler st now none = (⟨200, getFallbackFolders⟩, st, true) ∧
    getFallbackFolders ≠ [] := by
  refine ⟨?_, by decide⟩
  obtain ⟨fc, ts⟩ := st
  cases fc with
  | none => cases ts <;> rfl
  | some c =>
    cases ts with
    | none => rfl
    | some t =>
      simp only [cacheFresh] at hstale
      simp [getFoldersHandler, fetchStep, hstale]

/-- Witness for C3: with an empty cache and a failing fetch the handler
answers the fallback tree and the cache stays empty. -/
theorem folders_fallback_on_failure_witness :
    getFoldersHandler ⟨none, none⟩ 0 none =
      (⟨200, getFallbackFolders⟩, ⟨none, none⟩, true) ∧
    getFallbackFolders ≠ [] :=
  folders_fallback_on_failure ⟨none, none⟩ 0 rfl

/-- Helper: a fresh cache entry short-circuits the folders handler. -/
theorem getFolders_fresh (c : FolderTree) (ts now : Nat) (hts : ts ≠ 0)
    (hage : now - ts < CACHE_TTL) (fr : Option FolderTree) :
    getFoldersHandler ⟨some c, some ts⟩ now fr = (⟨200, c⟩, ⟨some c, some ts⟩, false) := by
  have hb : (ts != 0) = true := by simpa using hts
  simp [getFoldersHandler, hb, hage]

/-- Helper: a run of calls that all fall inside the TTL window of the
current entry performs zero upstream fetches and keeps the state. -/
theorem runFolders_fresh (c : FolderTree) (ts : Nat) (hts : ts ≠ 0) :
    ∀ (calls : List (Nat × Option FolderTree)),
      (∀ p ∈ calls, p.1 - ts < CACHE_TTL) →
      runFolders ⟨some c, some ts⟩ calls = (⟨some c, some ts⟩, 0)
  | [], _ => rfl
  | (now, fr) :: rest, h => by
    have h1 := getFolders_fresh c ts now hts (h (now, fr) (List.mem_cons_self _ _)) fr
    have h2 := runFolders_fresh c ts hts rest
      (fun p hp => h p (List.mem_cons_of_mem _ hp))
    simp [runFolders, h1, h2]

/-- Claim C2: while a cache entry with a positive timestamp and age below
the TTL exists, every folders call returns the cached tree unchanged and
does not invoke the upstream client; consequently a whole sequence of such
calls performs zero fetches and leaves the entry intact, so the upstream
client is invoked at most once per TTL window, namely by the fetch that
created the entry. -/
theorem folders_fresh_cache_no_fetch (c : FolderTree) (ts : Nat) (hts : ts ≠ 0)
    (calls : List (Nat × Option FolderTree))
    (hfresh : ∀ p ∈ calls, p.1 - ts < CACHE_TTL) :
    (∀ p ∈ calls,
       getFoldersHandler ⟨some c, some ts⟩ p.1 p.2 =
         (⟨200, c⟩, ⟨some c, some ts⟩, false)) ∧
    runFolders ⟨some c, some ts⟩ calls = (⟨some c, some ts⟩, 0) :=
  ⟨fun p hp => getFolders_fresh c ts p.1 hts (hfresh p hp) p.2,
   runFolders_fresh c ts hts calls hfresh⟩

/-- Witness for C2: three calls inside the window of an entry fetched at
time 1000, one of which would even have a successful fetch available,
return the cached tree and perform zero upstream invocations. -/
theorem folders_fresh_cache_no_fetch_witness :
    (∀ p ∈ ([(1000, none), (200000, some []), (300999, none)] :
        List (Nat × Option FolderTree)),
       getFoldersHandler ⟨some [("A", ["B"])], some 1000⟩ p.1 p.2 =
         (⟨200, [("A", ["B"])]⟩, ⟨some [("A", ["B"])], some 1000⟩, false)) ∧
    runFolders ⟨some [("A", ["B"])], some 1000⟩
        [(1000, none), (200000, some []), (300999, none)] =
      (⟨some [("A", ["B"])], some 1000⟩, 0) :=
  folders_fresh_cache_no_fetch [("A", ["B"])] 1000 (by decide) _ (by decide)

/-- Claim C7: dispatching any request against the gateway either leaves
the cache state untouched, or the request is a folders call with a stale
or absent entry whose live fetch succeeded, in which case both cache
variables are replaced wholesale by the fetched tree and the current
time.  In particular creation, validation failures, fallback and health
never write the cache, and no path clears an existing entry. -/
theorem cache_single_writer (st : CacheState) (req : Request) :
    (handle st req).2 = st ∨
    (∃ now tree, req = Request.folders now (some tree) ∧
      cacheFresh st now = false ∧
      (handle st req).2 = ⟨some tree, some now⟩) := by
  cases req with
  | health => left; rfl
  | create r u => left; rfl
  | folders now fr =>
    obtain ⟨fc, ts⟩ := st
    cases fc with
    | none =>
      cases fr with
      | none => left; cases ts <;> rfl
      | some tree =>
        right
        refine ⟨now, tree, rfl, ?_, ?_⟩ <;> cases ts <;> rfl
    | some c =>
      cases ts with
      | none =>
        cases fr with
        | none => left; rfl
        | some tree => right; exact ⟨now, tree, rfl, rfl, rfl⟩
      | some t =>
        by_cases hf : (t != 0 && decide (now - t < CACHE_TTL)) = true
        · left
          simp [handle, getFoldersHandler, hf]
        · rw [Bool.not_eq_true] at hf
          cases fr with
          | none =>
            left
            simp [handle, getFoldersHandler, fetchStep, hf]
          | some tree =>
            right
            refine ⟨now, tree, rfl, ?_, ?_⟩
            · simpa [cacheFresh] using hf
            · simp [handle, getFoldersHandler, fetchStep, hf]

/-- Helper: assigning a key that is not yet present appends it. -/
theorem objInsert_fresh (m : FolderTree) (k : String) (v : List String)
    (h : ∀ p ∈ m, p.1 ≠ k) : objInsert m k v = m ++ [(k, v)] := by
  unfold objInsert
  have hany : m.any (fun p => p.1 == k) = false := by
    simp only [List.any_eq_false]
    intro p hp
    simpa using h p hp
  simp [hany]

/-- The row the loop body produces for one top-level folder. -/
def subRow (sub : String → Option (List GhEntry)) (f : GhEntry) :
    String × List String :=
  (f.name, match sub f.name with
    | some entries => dirNames entries
    | none => [])

/-- Helper: one loop iteration is an object assignment of the row. -/
theorem loopStep_eq (sub : String → Option (List GhEntry)) (tree : FolderTree)
    (f : GhEntry) :
    loopStep sub tree f = objInsert tree f.name (subRow sub f).2 := by
  unfold loopStep subRow
  cases sub f.name <;> rfl

/-- Helper: when the folder names are distinct and disjoint from the
accumulator keys, the loop appends one row per folder in order. -/
theorem build_loop_eq (sub : String → Option (List GhEntry)) :
    ∀ (items : List GhEntry) (acc : FolderTree),
      (∀ i ∈ items, ∀ p ∈ acc, p.1 ≠ i.name) →
      (items.map GhEntry.name).Nodup →
      items.foldl (loopStep sub) acc = acc ++ items.map (subRow sub)
  | [], acc, _, _ => by simp
  | f :: rest, acc, hdisj, hnd => by
    have hfresh : ∀ p ∈ acc, p.1 ≠ f.name :=
      fun p hp => hdisj f (List.mem_cons_self _ _) p hp
    have hnotin : f.name ∉ rest.map GhEntry.name := by
      have := hnd
      simp only [List.map_cons, List.nodup_cons] at this
      exact this.1
    have hnd2 : (rest.map GhEntry.name).Nodup := by
      have := hnd
      simp only [List.map_cons, List.nodup_cons] at this
      exact this.2
    have hdisj2 : ∀ i ∈ rest, ∀ p ∈ acc ++ [subRow sub f], p.1 ≠ i.name := by
      intro i hi p hp
      rcases List.mem_append.mp hp with hp | hp
      · exact hdisj i (List.mem_cons_of_mem _ hi) p hp
      · have hpf : p = subRow sub f := by simpa using hp
        subst hpf
        intro hcontra
        have hfn : f.name = i.name := hcontra
        exact hnotin (hfn ▸ List.mem_map_of_mem GhEntry.name hi)
    have hrec := build_loop_eq sub rest (acc ++ [subRow sub f]) hdisj2 hnd2
    calc (f :: rest).foldl (loopStep sub) acc
        = rest.foldl (loopStep sub) (loopStep sub acc f) := by
          rw [List.foldl_cons]
      _ = rest.foldl (loopStep sub) (acc ++ [subRow sub f]) := by
          rw [loopStep_eq, objInsert_fresh acc f.name (subRow sub f).2 hfresh]
          rfl
      _ = acc ++ [subRow sub f] ++ rest.map (subRow sub) := hrec
      _ = acc ++ (f :: rest).map (subRow sub) := by simp

/-- Claim C6: given a successful root listing whose directory names are
distinct, failure of the per-folder listing of one directory does not
abort the fetch: the fetch succeeds, the tree has exactly one key per
directory-typed root entry in order, the failing directory is mapped to
the empty list, and every key and every subfolder name comes from an entry
of type dir. -/
theorem fetch_isolates_subfolder_failure (items : List GhEntry)
    (sub : String → Option (List GhEntry)) (bad : GhEntry)
    (hbad : bad ∈ items) (hbadty : bad.type = "dir")
    (hnd : ((items.filter (fun i => i.type == "dir")).map GhEntry.name).Nodup)
    (hsubbad : sub bad.name = none)
    (_hothers : ∀ i ∈ items, i.type = "dir" → i.name ≠ bad.name →
      (sub i.name).isSome = true) :
    ∃ t, fetchFoldersFromGitHub (some items) sub = some t ∧
      t.map Prod.fst = (items.filter (fun i => i.type == "dir")).map GhEntry.name ∧
      (bad.name, ([] : List String)) ∈ t ∧
      ∀ p ∈ t, (∃ i ∈ items, i.type = "dir" ∧ i.name = p.1) ∧
        ∀ n ∈ p.2, ∃ es, sub p.1 = some es ∧ ∃ e ∈ es, e.type = "dir" ∧ e.name = n := by
  have hbuild : (items.filter (fun i => i.type == "dir")).foldl (loopStep sub) [] =
      (items.filter (fun i => i.type == "dir")).map (subRow sub) := by
    have := build_loop_eq sub (items.filter (fun i => i.type == "dir")) []
      (by intro i _ p hp; cases hp) hnd
    simpa using this
  refine ⟨(items.filter (fun i => i.type == "dir")).map (subRow sub), ?_, ?_, ?_, ?_⟩
  · simp [fetchFoldersFromGitHub, hbuild]
  · simp [subRow]
  · have hbadmem : bad ∈ items.filter (fun i => i.type == "dir") :=
      List.mem_filter.mpr ⟨hbad, by simp [hbadty]⟩
    have hrow : subRow sub bad = (bad.name, []) := by
      simp [subRow, hsubbad]
    exact hrow ▸ List.mem_map_of_mem (subRow sub) hbadmem
  · intro p hp
    obtain ⟨i, hi, hpeq⟩ := List.mem_map.mp hp
    have himem : i ∈ items := (List.mem_filter.mp hi).1
    have hity : i.type = "dir" := by simpa using (List.mem_filter.mp hi).2
    subst hpeq
    refine ⟨⟨i, himem, hity, rfl⟩, ?_⟩
    intro n hn
    cases h : sub i.name with
    | none => simp [subRow, h] at hn
    | some es =>
      refine ⟨es, h, ?_⟩
      simp only [subRow, h, dirNames, List.mem_map, List.mem_filter] at hn
      obtain ⟨e, ⟨hemem, hety⟩, hename⟩ := hn
      exact ⟨e, hemem, by simpa using hety, hename⟩

/-- Concrete root listing for the C6 witness: two directories and a
file. -/
def ghRootW : List GhEntry :=
  [⟨"DS", "dir"⟩, ⟨"README.md", "file"⟩, ⟨"Broken", "dir"⟩]

/-- Concrete per-folder listing outcomes for the C6 witness: the listing
of DS succeeds, every other one fails. -/
def ghSubW : String → Option (List GhEntry) :=
  fun n => if n == "DS" then some [⟨"Arrays", "dir"⟩, ⟨"notes.txt", "file"⟩]
    else none

/-- Witness for C6: with the listing of Broken failing, the fetch still
yields a tree with both directory keys, Broken mapped to the empty list. -/
theorem fetch_isolates_subfolder_failure_witness :
    ∃ t, fetchFoldersFromGitHub (some ghRootW) ghSubW = some t ∧
      t.map Prod.fst = (ghRootW.filter (fun i => i.type == "dir")).map GhEntry.name ∧
      ("Broken", ([] : List String)) ∈ t ∧
      ∀ p ∈ t, (∃ i ∈ ghRootW, i.type = "dir" ∧ i.name = p.1) ∧
        ∀ n ∈ p.2, ∃ es, ghSubW p.1 = some es ∧
          ∃ e ∈ es, e.type = "dir" ∧ e.name = n :=
  fetch_isolates_subfolder_failure ghRootW ghSubW ⟨"Broken", "dir"⟩ (by decide) rfl
    (by decide) (by decide) (by decide)

end DSA
